import Mathlib

/-!
Shallow embedding of `dev::shared_ptr<T>` from
`src/include/shared_ptr/shared_ptr.h`.

Pointers to payload objects are modelled by `Ptr` (`obj n` for a separately
heap-allocated `T`, `inBlock b` for the `T m_object` embedded inside a
`control_block_with_storage`); a C++ null pointer is `Option.none`.
Control blocks live in a heap `Mem.blocks : Nat → Option CBData`.
The payload type `T` is modelled as a two-field value `V := Int × Int`
(enough for every claim, including the `(3.0, 5.0)` make-shared round trip).
Each `destroy_wrapper` construction receives a fresh identity `Nat` so that
"the same destruction strategy" is expressible; invoking a wrapper is logged
in `Mem.invocations` and, for a separately allocated object, frees it
(`std::default_delete<T>`).
-/

namespace SharedPtr

/-- Model of `T*` values that can point at a managed payload. -/
inductive Ptr where
  | obj : Nat → Ptr
  | inBlock : Nat → Ptr
deriving DecidableEq, Repr

/-- Payload value: a two-field record, modelling the `T` objects the tests
use (e.g. a struct with fields `x` and `y`). -/
abbrev V := Int × Int

/-- State of one control block (`control_block_base`, lines 65-121):
`m_ref_count` and the identity of the `destroy_wrapper` it holds.
`storage` is `some v` exactly for a `control_block_with_storage`
(lines 157-191), whose embedded `T m_object` has value `v`; it is `none`
for a plain `control_block` (lines 123-151). -/
structure CBData where
  m_ref_count : Nat
  wrapperId : Nat
  storage : Option V
deriving DecidableEq, Repr

/-- The global heap: allocated control blocks, separately allocated `T`
objects, fresh-name counters, and the log of `destroy_wrapper` invocations
(wrapper identity, pointer argument; `none` is a null argument). -/
structure Mem where
  blocks : Nat → Option CBData
  nextB : Nat
  objs : Nat → Option V
  nextO : Nat
  nextW : Nat
  invocations : List (Nat × Option Ptr)

/-- The two data members of `shared_ptr_base<T>` (lines 409-411). -/
structure SP where
  m_raw_underlying_ptr : Option Ptr
  m_control_block_ptr : Option Nat
deriving DecidableEq, Repr

/-- The empty heap. -/
def emptyMem : Mem :=
  { blocks := fun _ => none, nextB := 0, objs := fun _ => none, nextO := 0,
    nextW := 0, invocations := [] }

/-- `new T(v)`: allocate a payload object on the heap. -/
def allocObj (m : Mem) (v : V) : Ptr × Mem :=
  (Ptr.obj m.nextO,
   { m with objs := fun k => if k = m.nextO then some v else m.objs k,
            nextO := m.nextO + 1 })

/-- `destroy_wrapper(std::default_delete<T>())` (lines 21-63): constructing a
wrapper heap-allocates a fresh `destroyer`; we record only its identity. -/
def freshWrapper (m : Mem) : Nat × Mem :=
  (m.nextW, { m with nextW := m.nextW + 1 })

/-- Allocate a control block with the given data (`new control_block(...)` /
`new control_block_with_storage(...)`). -/
def allocBlock (m : Mem) (cb : CBData) : Nat × Mem :=
  (m.nextB,
   { m with blocks := fun k => if k = m.nextB then some cb else m.blocks k,
            nextB := m.nextB + 1 })

/-- Invoking a `destroy_wrapper` (lines 36-39): `operator()(pointer ptr)`
calls the stored deleter. Every wrapper in the claims' scenarios holds
`std::default_delete<T>`, which `delete`s a separately allocated object and
is a no-op on null. The invocation is logged. -/
def invokeWrapper (m : Mem) (w : Nat) (p : Option Ptr) : Mem :=
  { m with invocations := (w, p) :: m.invocations,
           objs := fun k => if some (Ptr.obj k) = p then none else m.objs k }

/-- `delete ptr` performed directly (catch handler of `shared_ptr(T*)`,
line 438), not through a wrapper. -/
def deleteObj (m : Mem) (p : Ptr) : Mem :=
  match p with
  | Ptr.obj n => { m with objs := fun k => if k = n then none else m.objs k }
  | Ptr.inBlock _ => m

/-- `release_shared` virtual dispatch on block `b` with argument `p`:
`control_block::release_shared` (lines 142-148) decrements and, at zero,
invokes the destroy wrapper on `p` and `delete this`;
`control_block_with_storage::release_shared` (lines 183-188) decrements and,
at zero, just `delete this` (the embedded object dies with the block). -/
def release_shared (m : Mem) (b : Nat) (p : Option Ptr) : Mem :=
  match m.blocks b with
  | none => m
  | some cb =>
    match cb.storage with
    | some _ =>
      if cb.m_ref_count - 1 = 0 then
        { m with blocks := fun k => if k = b then none else m.blocks k }
      else
        { m with blocks := fun k =>
            if k = b then some { cb with m_ref_count := cb.m_ref_count - 1 }
            else m.blocks k }
    | none =>
      if cb.m_ref_count - 1 = 0 then
        let m1 := invokeWrapper m cb.wrapperId p
        { m1 with blocks := fun k => if k = b then none else m1.blocks k }
      else
        { m with blocks := fun k =>
            if k = b then some { cb with m_ref_count := cb.m_ref_count - 1 }
            else m.blocks k }

/-- `shared_ptr_base(std::nullptr_t)` (lines 205-209): null payload pointer,
but `m_control_block_ptr = new control_block()` — a fresh block whose
`m_ref_count` is 0 and whose wrapper is a fresh default-delete wrapper
(lines 73-76, 127-130). -/
def sharedPtrNullCtor (m : Mem) : SP × Mem :=
  let (w, m1) := freshWrapper m
  let (b, m2) := allocBlock m1 { m_ref_count := 0, wrapperId := w, storage := none }
  ({ m_raw_underlying_ptr := none, m_control_block_ptr := some b }, m2)

/-- `shared_ptr_base()` (lines 197-200) delegates to the `nullptr_t`
constructor. -/
def sharedPtrDefaultCtor (m : Mem) : SP × Mem :=
  sharedPtrNullCtor m

/-- `shared_ptr(T* ptr)` (lines 430-442), successful allocation path: the
base constructor (lines 215-220) stores `ptr` with a null control-block
pointer, then the body allocates `new control_block(1u, default wrapper)`. -/
def sharedPtrRawCtor (m : Mem) (p : Ptr) : SP × Mem :=
  let (w, m1) := freshWrapper m
  let (b, m2) := allocBlock m1 { m_ref_count := 1, wrapperId := w, storage := none }
  ({ m_raw_underlying_ptr := some p, m_control_block_ptr := some b }, m2)

/-- Copy constructor (lines 253-259): copy both members, then increment the
control block's count when the control-block pointer is non-null. -/
def copyCtor (m : Mem) (other : SP) : SP × Mem :=
  match other.m_control_block_ptr with
  | none => (other, m)
  | some b =>
    (other,
     match m.blocks b with
     | none => m
     | some cb =>
       { m with blocks := fun k =>
           if k = b then some { cb with m_ref_count := cb.m_ref_count + 1 }
           else m.blocks k })

/-- Move constructor (lines 264-268): `std::exchange` both members with
null. Returns (the new handle, the source after the move). -/
def moveCtor (other : SP) : SP × SP :=
  (other, { m_raw_underlying_ptr := none, m_control_block_ptr := none })

/-- `swap` (lines 273-277): member-by-member exchange. -/
def swapSP (a b : SP) : SP × SP := (b, a)

/-- `use_count()` (lines 377-383): 0 when the control-block pointer is
null, otherwise the block's `m_ref_count` (lines 114-117). -/
def use_count (m : Mem) (s : SP) : Nat :=
  match s.m_control_block_ptr with
  | none => 0
  | some b =>
    match m.blocks b with
    | none => 0
    | some cb => cb.m_ref_count

/-- `get()` (line 320). -/
def get (s : SP) : Option Ptr := s.m_raw_underlying_ptr

/-- `operator*` (line 330) on the model: read the payload the handle points
at (`none` models dereferencing null / a dangling pointer). -/
def derefPtr (m : Mem) : Ptr → Option V
  | Ptr.obj n => m.objs n
  | Ptr.inBlock b => (m.blocks b).bind (fun cb => cb.storage)

def derefSP (m : Mem) (s : SP) : Option V :=
  s.m_raw_underlying_ptr.bind (derefPtr m)

/-- Destructor `~shared_ptr_base` (lines 308-314): when
`m_raw_underlying_ptr` is non-null it calls
`m_control_block_ptr->release_shared(m_raw_underlying_ptr)` and then nulls
`m_raw_underlying_ptr` ONLY — `m_control_block_ptr` is left as it was.
Calling `release_shared` through a null or dangling control-block pointer is
undefined behaviour, modelled by `none`. Returns the handle's final field
values together with the updated heap. -/
def dtor (m : Mem) (s : SP) : Option (SP × Mem) :=
  match s.m_raw_underlying_ptr with
  | none => some (s, m)
  | some p =>
    match s.m_control_block_ptr with
    | none => none
    | some b =>
      match m.blocks b with
      | none => none
      | some _ =>
        some ({ s with m_raw_underlying_ptr := none }, release_shared m b (some p))

/-- `reset_base(T* ptr, destroy_wrapper&& wrapper)` (lines 395-407).
`w` is the identity of the already-constructed wrapper argument. When
`ptr` differs from the current payload pointer the code evaluates
`--m_control_block_ptr->m_ref_count`: through a null control-block pointer
this is undefined behaviour (`none`). At count zero the OLD block's wrapper
destroys the old payload and the SAME block's count is stored back to `1u`
(the argument wrapper is discarded); otherwise the old block keeps the
decremented count and a brand-new `control_block(1u, std::move(wrapper))`
is installed. -/
def reset_base (m : Mem) (s : SP) (p : Option Ptr) (w : Nat) :
    Option (SP × Mem) :=
  if s.m_raw_underlying_ptr = p then
    some (s, m)
  else
    match s.m_control_block_ptr with
    | none => none
    | some b =>
      match m.blocks b with
      | none => none
      | some cb =>
        if cb.m_ref_count - 1 = 0 then
          let m1 := invokeWrapper m cb.wrapperId s.m_raw_underlying_ptr
          let m2 := { m1 with blocks := (fun k =>
              if k = b then some { cb with m_ref_count := 1 }
              else m1.blocks k) }
          some ({ s with m_raw_underlying_ptr := p }, m2)
        else
          let m1 := { m with blocks := (fun k =>
              if k = b then some { cb with m_ref_count := cb.m_ref_count - 1 }
              else m.blocks k) }
          let (b2, m2) := allocBlock m1
            { m_ref_count := 1, wrapperId := w, storage := none }
          some ({ m_raw_underlying_ptr := p, m_control_block_ptr := some b2 }, m2)

/-- `shared_ptr::reset(T* ptr)` (lines 459-462): construct a fresh
`destroy_wrapper(std::default_delete<T>())` and call `reset_base`. -/
def reset (m : Mem) (s : SP) (p : Option Ptr) : Option (SP × Mem) :=
  let (w, m1) := freshWrapper m
  reset_base m1 s p w

/-- Move assignment `operator=(shared_ptr_base&&)` (lines 299-303):
`shared_ptr_base{ std::move(other) }.swap(*this)` — a temporary is
move-constructed from the source, swapped with the target, and destroyed.
Returns (target after, source after, heap after); `none` when the
temporary's destructor hits undefined behaviour. -/
def moveAssign (m : Mem) (target src : SP) : Option (SP × SP × Mem) :=
  let (tmp, src1) := moveCtor src
  let (tmp1, target1) := swapSP tmp target
  (dtor m tmp1).map (fun r => (target1, src1, r.2))

/-- `shared_ptr(T* ptr)` (lines 430-442), allocation-FAILURE path.
The base constructor (lines 215-220) has completed with
`m_raw_underlying_ptr = ptr`, `m_control_block_ptr = nullptr` when
`new control_block(...)` throws. The catch handler does `delete ptr;` and
`throw ex;` (a sliced COPY of the caught `std::exception`, not a rethrow of
the original object). Because the exception leaves the derived constructor's
body, the fully-constructed base subobject is destroyed during unwinding:
`~shared_ptr_base` sees `m_raw_underlying_ptr == ptr` (still non-null) and
calls `release_shared` through the null `m_control_block_ptr` — undefined
behaviour before the exception can propagate. The heap after `delete ptr`
is returned alongside the outcome. -/
inductive RawCtorFailOutcome where
  | propagatedOriginal : SP → Mem → RawCtorFailOutcome
  | nullDerefUB : Mem → RawCtorFailOutcome

def sharedPtrRawCtorAllocFail (m : Mem) (p : Ptr) : RawCtorFailOutcome :=
  let m1 := deleteObj m p
  let baseAfterCatch : SP :=
    { m_raw_underlying_ptr := some p, m_control_block_ptr := none }
  match dtor m1 baseAfterCatch with
  | none => RawCtorFailOutcome.nullDerefUB m1
  | some (s2, m2) => RawCtorFailOutcome.propagatedOriginal s2 m2

/-- Variadic `shared_ptr_base(Args&&... args)` (lines 385-393): one
allocation of a `control_block_with_storage(destroy_wrapper(default_delete),
args...)` with `m_ref_count = 1` (line 167/178) and the payload constructed
in place; the handle's payload pointer is `cb->get()`, the address of the
embedded member (line 190). -/
def sharedPtrBaseArgsCtor (m : Mem) (v : V) : SP × Mem :=
  let (w, m1) := freshWrapper m
  let (b, m2) := allocBlock m1 { m_ref_count := 1, wrapperId := w, storage := some v }
  ({ m_raw_underlying_ptr := some (Ptr.inBlock b), m_control_block_ptr := some b },
   m2)

/-- `make_shared<T>(args...)` (lines 522-527): forwards to the variadic
constructor. -/
def make_shared (m : Mem) (v : V) : SP × Mem :=
  sharedPtrBaseArgsCtor m v

/-!
Trace model for the ownership lifecycle (claim about copy/move/destroy
sequences). Starting from ONE handle constructed from a non-null raw
pointer there is a single control block (index 0) and a single payload
(`Ptr.obj 0`); copies, moves and destructions never allocate another block,
so the heap is specialised to: the one block's `m_ref_count`, whether the
block is still allocated, and how many times the destroy strategy has been
invoked on the payload. Each step mirrors the corresponding member function
on one handle of a list of live handles (out-of-range indices are no-ops so
that the step function is total).
-/

/-- One lifecycle operation on handle `i`. -/
inductive Op where
  | copy : Nat → Op
  | move : Nat → Op
  | destroy : Nat → Op

/-- Specialised program state for the single-block lifecycle traces. -/
structure TraceState where
  handles : List SP
  refCount : Nat
  cbAlive : Bool
  destroys : Nat

/-- The handle value every owner has in this scenario: payload `Ptr.obj 0`
managed through block 0. -/
def ownH : SP := { m_raw_underlying_ptr := some (Ptr.obj 0), m_control_block_ptr := some 0 }

/-- A moved-from handle: both members null (lines 264-268). -/
def empH : SP := { m_raw_underlying_ptr := none, m_control_block_ptr := none }

/-- Number of handles that still own the payload (non-null payload
pointer). -/
def countOwning (hs : List SP) : Nat :=
  hs.countP (fun h => h.m_raw_underlying_ptr.isSome)

/-- One step of the lifecycle.
`copy i`: copy constructor (lines 253-259) — a new handle with the same two
members is appended, and `increment()` runs iff the source's control-block
pointer is non-null.
`move i`: move constructor (lines 264-268) — the new handle steals the
members, the source becomes null/null; no count change.
`destroy i`: destructor (lines 308-314) — the handle is removed; when its
payload pointer is non-null, `control_block::release_shared` (lines
142-148) decrements and, at zero, invokes the destroy strategy once and
`delete this` on the block. -/
def traceStep (s : TraceState) (op : Op) : TraceState :=
  match op with
  | Op.copy i =>
    match s.handles.get? i with
    | none => s
    | some h =>
      { s with handles := s.handles ++ [h],
               refCount := if h.m_control_block_ptr.isSome then s.refCount + 1
                           else s.refCount }
  | Op.move i =>
    match s.handles.get? i with
    | none => s
    | some h =>
      { s with handles := (s.handles.set i empH) ++ [h] }
  | Op.destroy i =>
    match s.handles.get? i with
    | none => s
    | some h =>
      if h.m_raw_underlying_ptr.isSome then
        if s.refCount - 1 = 0 then
          { handles := s.handles.eraseIdx i, refCount := 0, cbAlive := false,
            destroys := s.destroys + 1 }
        else
          { s with handles := s.handles.eraseIdx i, refCount := s.refCount - 1 }
      else
        { s with handles := s.handles.eraseIdx i }

/-- Initial state: one handle just constructed from a non-null raw pointer
(`shared_ptr(T*)`, lines 430-442): count 1, block alive, strategy not yet
invoked. -/
def initTrace : TraceState :=
  { handles := [ownH], refCount := 1, cbAlive := true, destroys := 0 }

/-- Run a finite sequence of lifecycle operations. -/
def runTrace (ops : List Op) : TraceState :=
  ops.foldl traceStep initTrace

/-- Inductive invariant of the lifecycle traces: the block's count equals
the number of owning handles; every live handle is either a full owner or
null/null; the strategy has run exactly once iff no owner remains (iff the
block has been freed). -/
def TraceInv (s : TraceState) : Prop :=
  s.refCount = countOwning s.handles ∧
  (∀ h ∈ s.handles, h = ownH ∨ h = empH) ∧
  s.destroys = (if countOwning s.handles = 0 then 1 else 0) ∧
  (s.cbAlive = true ↔ countOwning s.handles ≠ 0)

/-!
Concrete scenario used by several claims: `auto ptr = new T(v0);
dev::shared_ptr<T> a{ptr};` then (for the shared-ownership claims)
`auto b{a}; auto c{b};` and a second payload `new T(v1)`.
Addresses in this run: payload 0 is `Ptr.obj 0`, the first control block is
block 0 with wrapper 0; the second payload is `Ptr.obj 1`.
-/

def chainP0 (v0 : V) : Ptr := (allocObj emptyMem v0).1

def chainM0 (v0 : V) : Mem := (allocObj emptyMem v0).2

def chainA (v0 : V) : SP := (sharedPtrRawCtor (chainM0 v0) (chainP0 v0)).1

def chainMA (v0 : V) : Mem := (sharedPtrRawCtor (chainM0 v0) (chainP0 v0)).2

def chainB (v0 : V) : SP := (copyCtor (chainMA v0) (chainA v0)).1

def chainMB (v0 : V) : Mem := (copyCtor (chainMA v0) (chainA v0)).2

def chainC (v0 : V) : SP := (copyCtor (chainMB v0) (chainB v0)).1

def chainMC (v0 : V) : Mem := (copyCtor (chainMB v0) (chainB v0)).2

def chainP1 (v0 v1 : V) : Ptr := (allocObj (chainMC v0) v1).1

def chainM4 (v0 v1 : V) : Mem := (allocObj (chainMC v0) v1).2

/-- Second payload allocated right after `a`'s construction (sole-owner
reset scenario). -/
def soloP1 : Ptr := (allocObj (chainMA (0, 0)) (1, 1)).1

def soloM1 : Mem := (allocObj (chainMA (0, 0)) (1, 1)).2

lemma countP_eraseIdx_get {α : Type} (p : α → Bool) :
    ∀ (l : List α) (i : Nat) (x : α), l.get? i = some x →
      (l.eraseIdx i).countP p + (if p x then 1 else 0) = l.countP p := by
  intro l
  induction l with
  | nil => intro i x h; simp at h
  | cons a t ih =>
    intro i x h
    cases i with
    | zero =>
      simp only [List.get?] at h
      cases h
      simp [List.eraseIdx, List.countP_cons]
    | succ n =>
      simp only [List.get?] at h
      have := ih n x h
      simp only [List.eraseIdx, List.countP_cons]
      omega

lemma countOwning_append (a b : List SP) :
    countOwning (a ++ b) = countOwning a + countOwning b :=
  List.countP_append _ a b

lemma countOwning_pos_of_mem {hs : List SP} (hmem : ownH ∈ hs) :
    0 < countOwning hs :=
  List.countP_pos_iff.mpr ⟨ownH, hmem, rfl⟩

lemma countP_set_get {α : Type} (p : α → Bool) (y : α) :
    ∀ (l : List α) (i : Nat) (x : α), l.get? i = some x →
      (l.set i y).countP p + (if p x then 1 else 0) =
      l.countP p + (if p y then 1 else 0) := by
  intro l
  induction l with
  | nil => intro i x h; simp at h
  | cons a t ih =>
    intro i x h
    cases i with
    | zero =>
      simp only [List.get?] at h
      cases h
      simp only [List.set, List.countP_cons]
      omega
    | succ n =>
      simp only [List.get?] at h
      have h2 := ih n x h
      simp only [List.set, List.countP_cons]
      omega

lemma countOwning_append_own (hs : List SP) :
    countOwning (hs ++ [ownH]) = countOwning hs + 1 := by
  simp [countOwning, List.countP_append, List.countP_cons, ownH]

lemma countOwning_append_emp (hs : List SP) :
    countOwning (hs ++ [empH]) = countOwning hs := by
  simp [countOwning, List.countP_append, List.countP_cons, empH]

lemma traceStep_inv (s : TraceState) (op : Op) (hinv : TraceInv s) :
    TraceInv (traceStep s op) := by
  obtain ⟨hcnt, hmem, hdes, hcb⟩ := hinv
  cases op with
  | copy i =>
    simp only [traceStep]
    cases hget : s.handles.get? i with
    | none => exact ⟨hcnt, hmem, hdes, hcb⟩
    | some h =>
      have hin : h ∈ s.handles := List.get?_mem hget
      have hmem2 : ∀ h' ∈ s.handles ++ [h], h' = ownH ∨ h' = empH := by
        intro h' hh'
        rcases List.mem_append.mp hh' with h1 | h1
        · exact hmem h' h1
        · rw [List.mem_singleton.mp h1]; exact hmem h hin
      rcases hmem h hin with hh | hh
      · subst hh
        have hpos : 0 < countOwning s.handles := countOwning_pos_of_mem hin
        have h1 := countOwning_append_own s.handles
        refine ⟨?_, hmem2, ?_, ?_⟩
        · show (if ownH.m_control_block_ptr.isSome then s.refCount + 1
              else s.refCount) = countOwning (s.handles ++ [ownH])
          rw [if_pos (show ownH.m_control_block_ptr.isSome = true from rfl), h1]
          omega
        · show s.destroys = if countOwning (s.handles ++ [ownH]) = 0 then 1 else 0
          rw [h1, if_neg (by omega), hdes, if_neg (by omega)]
        · show s.cbAlive = true ↔ countOwning (s.handles ++ [ownH]) ≠ 0
          rw [h1]
          constructor
          · intro _; omega
          · intro _; exact hcb.mpr (by omega)
      · subst hh
        have h1 := countOwning_append_emp s.handles
        refine ⟨?_, hmem2, ?_, ?_⟩
        · show (if empH.m_control_block_ptr.isSome then s.refCount + 1
              else s.refCount) = countOwning (s.handles ++ [empH])
          rw [if_neg (show ¬(empH.m_control_block_ptr.isSome = true) by decide), h1]
          exact hcnt
        · show s.destroys = if countOwning (s.handles ++ [empH]) = 0 then 1 else 0
          rw [h1]; exact hdes
        · show s.cbAlive = true ↔ countOwning (s.handles ++ [empH]) ≠ 0
          rw [h1]; exact hcb
  | move i =>
    simp only [traceStep]
    cases hget : s.handles.get? i with
    | none => exact ⟨hcnt, hmem, hdes, hcb⟩
    | some h =>
      have hin : h ∈ s.handles := List.get?_mem hget
      have hset := countP_set_get (fun h : SP => h.m_raw_underlying_ptr.isSome)
        empH s.handles i h hget
      have htotal : countOwning ((s.handles.set i empH) ++ [h]) =
          countOwning s.handles := by
        have happ := countOwning_append (s.handles.set i empH) [h]
        have hsing : countOwning [h] =
            if h.m_raw_underlying_ptr.isSome then 1 else 0 := by
          simp [countOwning, List.countP_cons]
        have hemp0 : (if (empH.m_raw_underlying_ptr.isSome) then 1 else 0) = 0 := by
          simp [empH]
        simp only [countOwning] at hset happ hsing ⊢
        omega
      refine ⟨?_, ?_, ?_, ?_⟩
      · show s.refCount = countOwning ((s.handles.set i empH) ++ [h])
        rw [htotal]; exact hcnt
      · intro h' hh'
        rcases List.mem_append.mp hh' with h1 | h1
        · rcases List.mem_or_eq_of_mem_set h1 with h2 | h2
          · exact hmem h' h2
          · right; exact h2
        · rw [List.mem_singleton.mp h1]; exact hmem h hin
      · show s.destroys =
            if countOwning ((s.handles.set i empH) ++ [h]) = 0 then 1 else 0
        rw [htotal]; exact hdes
      · show s.cbAlive = true ↔ countOwning ((s.handles.set i empH) ++ [h]) ≠ 0
        rw [htotal]; exact hcb
  | destroy i =>
    simp only [traceStep]
    cases hget : s.handles.get? i with
    | none => exact ⟨hcnt, hmem, hdes, hcb⟩
    | some h =>
      have hin : h ∈ s.handles := List.get?_mem hget
      have herase := countP_eraseIdx_get
        (fun h : SP => h.m_raw_underlying_ptr.isSome) s.handles i h hget
      have hmem2 : ∀ h' ∈ s.handles.eraseIdx i, h' = ownH ∨ h' = empH :=
        fun h' hh' => hmem h' (List.mem_of_mem_eraseIdx hh')
      rcases hmem h hin with hh | hh
      · subst hh
        have herase2 : countOwning (s.handles.eraseIdx i) + 1 =
            countOwning s.handles := by
          simpa [countOwning, ownH] using herase
        have hpos : 0 < countOwning s.handles := countOwning_pos_of_mem hin
        show TraceInv (if s.refCount - 1 = 0 then
            { handles := s.handles.eraseIdx i, refCount := 0, cbAlive := false,
              destroys := s.destroys + 1 }
          else
            { s with handles := s.handles.eraseIdx i,
                     refCount := s.refCount - 1 })
        by_cases hz : s.refCount - 1 = 0
        · rw [if_pos hz]
          have hrest0 : countOwning (s.handles.eraseIdx i) = 0 := by omega
          have hd0 : s.destroys = 0 := by rw [hdes, if_neg (by omega)]
          refine ⟨?_, hmem2, ?_, ?_⟩
          · show (0 : Nat) = countOwning (s.handles.eraseIdx i)
            omega
          · show s.destroys + 1 =
                if countOwning (s.handles.eraseIdx i) = 0 then 1 else 0
            rw [if_pos hrest0]; omega
          · show (false = true) ↔ countOwning (s.handles.eraseIdx i) ≠ 0
            simp [hrest0]
        · rw [if_neg hz]
          refine ⟨?_, hmem2, ?_, ?_⟩
          · show s.refCount - 1 = countOwning (s.handles.eraseIdx i)
            omega
          · show s.destroys =
                if countOwning (s.handles.eraseIdx i) = 0 then 1 else 0
            rw [if_neg (by omega), hdes, if_neg (by omega)]
          · show s.cbAlive = true ↔ countOwning (s.handles.eraseIdx i) ≠ 0
            constructor
            · intro _; omega
            · intro _; exact hcb.mpr (by omega)
      · subst hh
        have herase2 : countOwning (s.handles.eraseIdx i) =
            countOwning s.handles := by
          simpa [countOwning, empH] using herase
        refine ⟨?_, hmem2, ?_, ?_⟩
        · show s.refCount = countOwning (s.handles.eraseIdx i)
          rw [herase2]; exact hcnt
        · show s.destroys =
              if countOwning (s.handles.eraseIdx i) = 0 then 1 else 0
          rw [herase2]; exact hdes
        · show s.cbAlive = true ↔ countOwning (s.handles.eraseIdx i) ≠ 0
          rw [herase2]; exact hcb

lemma traceInv_foldl (ops : List Op) :
    ∀ s : TraceState, TraceInv s → TraceInv (ops.foldl traceStep s) := by
  induction ops with
  | nil => intro s h; exact h
  | cons op rest ih =>
    intro s h
    exact ih (traceStep s op) (traceStep_inv s op h)

lemma traceInv_init : TraceInv initTrace := by
  refine ⟨rfl, ?_, rfl, by simp [initTrace, countOwning, ownH]⟩
  intro h hh
  left
  simpa [initTrace] using hh

/-- C1: for every finite sequence of copy, move and destroy operations
starting from one handle constructed from a non-null raw pointer, the
payload's destruction strategy is invoked at most once, it has been invoked
(exactly once) precisely when no owning handle remains — i.e. only at the
destruction of the last owning handle — and the shared count always equals
the number of owning handles, so it reaches zero exactly at the final
release. -/
theorem C1_destruction_strategy_exactly_once (ops : List Op) :
    (runTrace ops).destroys ≤ 1 ∧
    ((runTrace ops).destroys = 1 ↔ countOwning (runTrace ops).handles = 0) ∧
    (runTrace ops).refCount = countOwning (runTrace ops).handles := by
  have h : TraceInv (runTrace ops) := traceInv_foldl ops initTrace traceInv_init
  obtain ⟨h1, _, h3, _⟩ := h
  refine ⟨?_, ?_, h1⟩
  · rw [h3]; split_ifs <;> omega
  · rw [h3]
    split_ifs with hc
    · simp [hc]
    · simp [hc]

/-- C4 counterexample: a default-constructed handle refutes "payload pointer
is non-null iff control-block pointer is non-null" (and with it "an empty
handle holds no control block"): its payload pointer is null while its
control-block pointer is non-null (the default constructor heap-allocates a
zero-count control block). -/
theorem C4_counterexample :
    ¬ (((sharedPtrDefaultCtor emptyMem).1.m_raw_underlying_ptr.isSome) ↔
       ((sharedPtrDefaultCtor emptyMem).1.m_control_block_ptr.isSome)) := by
  decide

/-- C4 amended: for a handle produced by the default constructor the payload
pointer is null, yet the control-block pointer is non-null — it points at a
freshly allocated control block whose reference count is 0 — and
`use_count()` on this empty handle returns 0. -/
theorem C4_empty_handle_amended (m : Mem) :
    (sharedPtrDefaultCtor m).1.m_raw_underlying_ptr = none ∧
    (sharedPtrDefaultCtor m).1.m_control_block_ptr = some m.nextB ∧
    use_count (sharedPtrDefaultCtor m).2 (sharedPtrDefaultCtor m).1 = 0 := by
  refine ⟨rfl, rfl, ?_⟩
  simp [sharedPtrDefaultCtor, sharedPtrNullCtor, freshWrapper, allocBlock,
        use_count]

/-- C10: copy-constructing from a default-constructed (empty) handle
increments the zero-count control block the default constructor allocated:
afterwards both the source and the copy report `use_count() == 1` although
`get()` is null for both. -/
theorem C10_copy_of_default_handle (m : Mem) :
    use_count (copyCtor (sharedPtrDefaultCtor m).2 (sharedPtrDefaultCtor m).1).2
      (sharedPtrDefaultCtor m).1 = 1 ∧
    use_count (copyCtor (sharedPtrDefaultCtor m).2 (sharedPtrDefaultCtor m).1).2
      (copyCtor (sharedPtrDefaultCtor m).2 (sharedPtrDefaultCtor m).1).1 = 1 ∧
    get (sharedPtrDefaultCtor m).1 = none ∧
    get (copyCtor (sharedPtrDefaultCtor m).2 (sharedPtrDefaultCtor m).1).1 =
      none := by
  refine ⟨?_, ?_, rfl, rfl⟩ <;>
    simp [sharedPtrDefaultCtor, sharedPtrNullCtor, freshWrapper, allocBlock,
          copyCtor, use_count, get]

/-- C8: the single-allocation factory returns a handle whose dereferenced
payload equals the supplied constructor arguments, whose `use_count()` is 1,
and whose payload pointer aliases the object embedded in the control block
it returns (same allocation index). -/
theorem C8_make_shared_round_trip (m : Mem) (v : V) :
    (make_shared m v).1.m_control_block_ptr = some m.nextB ∧
    (make_shared m v).1.m_raw_underlying_ptr = some (Ptr.inBlock m.nextB) ∧
    derefSP (make_shared m v).2 (make_shared m v).1 = some v ∧
    use_count (make_shared m v).2 (make_shared m v).1 = 1 := by
  refine ⟨rfl, rfl, ?_, ?_⟩ <;>
    simp [make_shared, sharedPtrBaseArgsCtor, freshWrapper, allocBlock,
          derefSP, derefPtr, use_count]

/-- C2 (evaluation of the code at the failing input): when the control-block
allocation inside `shared_ptr(T*)` fails, the catch handler does delete the
pointee, but the outcome is not a clean propagation of the original
exception: the already-constructed base subobject is destroyed during stack
unwinding with its payload pointer still non-null and its control-block
pointer still null, so the destructor calls `release_shared` through a null
pointer — undefined behaviour (and the handler's `throw ex;` would in any
case rethrow a sliced copy, not the original exception object). -/
theorem C2_alloc_failure_null_deref :
    sharedPtrRawCtorAllocFail (allocObj emptyMem (5, 0)).2 (Ptr.obj 0) =
      RawCtorFailOutcome.nullDerefUB
        (deleteObj (allocObj emptyMem (5, 0)).2 (Ptr.obj 0)) ∧
    (deleteObj (allocObj emptyMem (5, 0)).2 (Ptr.obj 0)).objs 0 = none :=
  ⟨rfl, rfl⟩

/-- C7: after `b` is move-constructed (or move-assigned, `b` being empty)
from an owning handle `a`: the new handle holds exactly the two pointers `a`
held, the moved-from `a` has null payload and control-block pointers so
`a.use_count() == 0` and `a.get() == null`, and the heap — in particular the
shared reference count — is completely unchanged by the move. -/
theorem C7_move_leaves_source_empty (m : Mem) (a b : SP) (p : Ptr)
    (ha : a.m_raw_underlying_ptr = some p)
    (hb : b.m_raw_underlying_ptr = none) :
    (moveCtor a).1 = a ∧
    (moveCtor a).2.m_raw_underlying_ptr = none ∧
    (moveCtor a).2.m_control_block_ptr = none ∧
    use_count m (moveCtor a).2 = 0 ∧
    get (moveCtor a).1 = some p ∧
    moveAssign m b a =
      some (a, { m_raw_underlying_ptr := none, m_control_block_ptr := none },
        m) := by
  refine ⟨rfl, rfl, rfl, rfl, ha, ?_⟩
  simp [moveAssign, moveCtor, swapSP, dtor, hb]

/-- C7 witness: the concrete instance with `a` owning payload `Ptr.obj 0`
through block 0 and `b` empty. -/
theorem C7_witness :
    ({ m_raw_underlying_ptr := some (Ptr.obj 0),
       m_control_block_ptr := some 0 } : SP).m_raw_underlying_ptr =
        some (Ptr.obj 0) ∧
    ({ m_raw_underlying_ptr := none,
       m_control_block_ptr := none } : SP).m_raw_underlying_ptr = none ∧
    moveAssign emptyMem
      { m_raw_underlying_ptr := none, m_control_block_ptr := none }
      { m_raw_underlying_ptr := some (Ptr.obj 0), m_control_block_ptr := some 0 } =
      some ({ m_raw_underlying_ptr := some (Ptr.obj 0),
              m_control_block_ptr := some 0 },
            { m_raw_underlying_ptr := none, m_control_block_ptr := none },
            emptyMem) :=
  ⟨rfl, rfl,
   (C7_move_leaves_source_empty emptyMem
     { m_raw_underlying_ptr := some (Ptr.obj 0), m_control_block_ptr := some 0 }
     { m_raw_underlying_ptr := none, m_control_block_ptr := none }
     (Ptr.obj 0) rfl rfl).2.2.2.2.2⟩

/-- C9: on a handle whose control-block pointer is null (e.g. a moved-from
handle), `reset(ptr)` with `ptr` different from the held payload pointer
dereferences the null control-block pointer (the total embedding returns
`none`); whereas whenever the control-block pointer refers to an allocated
block, `reset` completes. So `reset` is safe only under the precondition
that the control-block pointer is non-null. -/
theorem C9_reset_requires_control_block (m : Mem) (s : SP) (p : Ptr)
    (hcb : s.m_control_block_ptr = none)
    (hne : s.m_raw_underlying_ptr ≠ some p) :
    reset m s (some p) = none ∧
    ∀ (t : SP) (q : Option Ptr) (b : Nat) (cbd : CBData),
      t.m_control_block_ptr = some b → m.blocks b = some cbd →
      (reset m t q).isSome := by
  constructor
  · simp [reset, reset_base, freshWrapper, hne, hcb]
  · intro t q b cbd ht hb
    by_cases hq : t.m_raw_underlying_ptr = q
    · simp [reset, reset_base, freshWrapper, hq]
    · by_cases hz : cbd.m_ref_count - 1 = 0
      · simp [reset, reset_base, freshWrapper, allocBlock, hq, ht, hb, hz]
      · simp [reset, reset_base, freshWrapper, allocBlock, hq, ht, hb, hz]

/-- C9 witness: a moved-from handle (both members null) and the non-null
pointer `Ptr.obj 0`: reset hits the null control-block dereference. -/
theorem C9_witness :
    ({ m_raw_underlying_ptr := none,
       m_control_block_ptr := none } : SP).m_control_block_ptr = none ∧
    ({ m_raw_underlying_ptr := none,
       m_control_block_ptr := none } : SP).m_raw_underlying_ptr ≠
        some (Ptr.obj 0) ∧
    reset emptyMem { m_raw_underlying_ptr := none, m_control_block_ptr := none }
      (some (Ptr.obj 0)) = none :=
  ⟨rfl, by decide,
   (C9_reset_requires_control_block emptyMem
     { m_raw_underlying_ptr := none, m_control_block_ptr := none }
     (Ptr.obj 0) rfl (by decide)).1⟩

/-- C5: given `a` owning a fresh payload with value `v0`, `b` copied from
`a`, `c` copied from `b` (count 3), `a.reset(newPayload)` with a fresh
non-null pointer yields `a.use_count() == 1`, `b.use_count() == 2`, and the
payload observed through `b` and `c` is the original value `v0`,
unchanged. -/
theorem C5_reset_under_shared_ownership (v0 v1 : V) :
    ((reset (chainM4 v0 v1) (chainA v0) (some (chainP1 v0 v1))).map
       (fun r => (use_count r.2 r.1, use_count r.2 (chainB v0),
                  derefSP r.2 (chainB v0), derefSP r.2 (chainC v0))))
      = some (1, 2, some v0, some v0) := rfl

/-- C3 counterexample: with `a` the sole owner of payload `Ptr.obj 0`
(control block 0, destroy wrapper 0, count 1), `a.reset(Ptr.obj 1)` leaves
`a` owning the new payload through the SAME control block 0, which is still
allocated and still carries the original wrapper 0 with its count stored
back to 1 — the freshly supplied wrapper (which would have had identity 1)
is discarded, the old block is not released, and no brand-new control block
is created; the old strategy is thereby reused for a different managed
object, contrary to the claim. -/
theorem C3_counterexample :
    (chainA (0, 0)).m_control_block_ptr = some 0 ∧
    ((reset soloM1 (chainA (0, 0)) (some soloP1)).map
       (fun r => (r.1.m_control_block_ptr,
                  (r.2.blocks 0).map (fun c => c.wrapperId),
                  (r.2.blocks 0).map (fun c => c.m_ref_count))))
      = some (some 0, some 0, some 1) ∧
    (freshWrapper soloM1).1 = 1 :=
  ⟨rfl, rfl, rfl⟩

/-- C3 amended: when the caller is the last owner and `ptr` differs from the
held payload pointer, `reset(ptr)` destroys the old payload via the old
control block's destruction strategy, but then REUSES the old control block:
its count is stored back to 1 and it keeps its original strategy (the
freshly supplied wrapper is discarded), and `*this` ends up owning `ptr`
through that same block; no new control block is created on this path. -/
theorem C3_reset_last_owner_amended (m : Mem) (s : SP) (p pnew : Ptr)
    (b : Nat) (cbd : CBData)
    (hraw : s.m_raw_underlying_ptr = some p)
    (hcb : s.m_control_block_ptr = some b)
    (hblk : m.blocks b = some cbd)
    (hone : cbd.m_ref_count = 1)
    (hne : p ≠ pnew) :
    ((reset m s (some pnew)).map (fun r => r.1)) =
      some { m_raw_underlying_ptr := some pnew,
             m_control_block_ptr := some b } ∧
    ((reset m s (some pnew)).map (fun r => r.2.blocks b)) =
      some (some { m_ref_count := 1, wrapperId := cbd.wrapperId,
                   storage := cbd.storage }) ∧
    ((reset m s (some pnew)).map (fun r => r.2.invocations)) =
      some ((cbd.wrapperId, some p) :: m.invocations) := by
  refine ⟨?_, ?_, ?_⟩ <;>
    simp [reset, reset_base, freshWrapper, invokeWrapper, hraw, hcb, hblk,
          hone, hne]

/-- C3 witness: the sole-owner scenario with payload `Ptr.obj 0`, block 0,
wrapper 0, new payload `Ptr.obj 1`. -/
theorem C3_witness :
    (chainA (0, 0)).m_raw_underlying_ptr = some (Ptr.obj 0) ∧
    (chainA (0, 0)).m_control_block_ptr = some 0 ∧
    soloM1.blocks 0 =
      some { m_ref_count := 1, wrapperId := 0, storage := none } ∧
    Ptr.obj 0 ≠ soloP1 ∧
    ((reset soloM1 (chainA (0, 0)) (some soloP1)).map (fun r => r.1)) =
      some { m_raw_underlying_ptr := some soloP1,
             m_control_block_ptr := some 0 } :=
  ⟨rfl, rfl, rfl, by decide,
   (C3_reset_last_owner_amended soloM1 (chainA (0, 0)) (Ptr.obj 0) soloP1 0
     { m_ref_count := 1, wrapperId := 0, storage := none }
     rfl rfl rfl rfl (by decide)).1⟩

/-- C6 counterexample: destroying the sole owning handle of payload
`Ptr.obj 0` leaves the handle's control-block pointer equal to `some 0`,
not null — the destructor nulls only the payload pointer, refuting "sets
both the payload pointer and the control-block pointer to null". -/
theorem C6_counterexample :
    ((dtor (chainMA (0, 0)) (chainA (0, 0))).map
       (fun r => r.1.m_control_block_ptr)) = some (some 0) ∧
    ¬ ((dtor (chainMA (0, 0)) (chainA (0, 0))).map
       (fun r => r.1.m_control_block_ptr)) = some none :=
  ⟨rfl, by decide⟩

/-- C6 amended: for every non-empty handle (payload pointer non-null,
control-block pointer at an allocated block) the destructor calls
`release_shared` on that block exactly once — decrementing its count by
exactly one, invoking the destroy strategy exactly when the count reaches
zero — then nulls the payload pointer ONLY, leaving the control-block
pointer unchanged; no other control block is modified. -/
theorem C6_dtor_amended (m : Mem) (s : SP) (p : Ptr) (b : Nat) (cbd : CBData)
    (hraw : s.m_raw_underlying_ptr = some p)
    (hcb : s.m_control_block_ptr = some b)
    (hblk : m.blocks b = some cbd) :
    dtor m s =
      some ({ m_raw_underlying_ptr := none, m_control_block_ptr := some b },
            release_shared m b (some p)) ∧
    (∀ b2, b2 ≠ b →
      (release_shared m b (some p)).blocks b2 = m.blocks b2) ∧
    (cbd.storage = none → cbd.m_ref_count = 1 →
      (release_shared m b (some p)).blocks b = none ∧
      (release_shared m b (some p)).invocations =
        (cbd.wrapperId, some p) :: m.invocations) ∧
    (cbd.storage = none → 1 < cbd.m_ref_count →
      (release_shared m b (some p)).blocks b =
        some { cbd with m_ref_count := cbd.m_ref_count - 1 } ∧
      (release_shared m b (some p)).invocations = m.invocations) := by
  refine ⟨?_, ?_, ?_, ?_⟩
  · simp [dtor, hraw, hcb, hblk]
  · intro b2 hb2
    cases hst : cbd.storage with
    | none =>
      by_cases hz : cbd.m_ref_count - 1 = 0 <;>
        simp [release_shared, invokeWrapper, hblk, hst, hz, hb2]
    | some v =>
      by_cases hz : cbd.m_ref_count - 1 = 0 <;>
        simp [release_shared, invokeWrapper, hblk, hst, hz, hb2]
  · intro hst hone
    constructor <;> simp [release_shared, invokeWrapper, hblk, hst, hone]
  · intro hst hgt
    have hz : ¬ (cbd.m_ref_count - 1 = 0) := by omega
    constructor <;> simp [release_shared, invokeWrapper, hblk, hst, hz]

/-- C6 witness: the sole-owner scenario — `a` owns `Ptr.obj 0` through
block 0, and its destructor runs. -/
theorem C6_witness :
    (chainA (0, 0)).m_raw_underlying_ptr = some (Ptr.obj 0) ∧
    (chainA (0, 0)).m_control_block_ptr = some 0 ∧
    (chainMA (0, 0)).blocks 0 =
      some { m_ref_count := 1, wrapperId := 0, storage := none } ∧
    dtor (chainMA (0, 0)) (chainA (0, 0)) =
      some ({ m_raw_underlying_ptr := none, m_control_block_ptr := some 0 },
            release_shared (chainMA (0, 0)) 0 (some (Ptr.obj 0))) :=
  ⟨rfl, rfl, rfl,
   (C6_dtor_amended (chainMA (0, 0)) (chainA (0, 0)) (Ptr.obj 0) 0
     { m_ref_count := 1, wrapperId := 0, storage := none } rfl rfl rfl).1⟩

end SharedPtr
